import Mathlib

/-!
Verification of the routing / failover engine of a multi-provider LLM gateway.

The definitions below are a shallow embedding of the TypeScript sources:
  - src/failover.ts            (isRetryableError, withFailover, FailoverError)
  - src/universal-router.ts    (generateWithProvider)
  - src/router-vision.ts       (generateWithVision)
  - src/router-utils.ts        (REFUSAL_PATTERNS, isRefusalResponse)
  - src/usage-tracker.ts       (calculateCost, trackUsage)
  - src/feature-resolver.ts    (resolveWithFallback, resolveByTags, resolveBySpecificModel)
  - src/smart-routing.ts       (checkBudgetThreshold, resetBudgetAlertStatus,
                                getBudgetSummary, filterByBudget)

Modelling conventions: JavaScript numbers are embedded as rationals
(Math.round is floor of x + 1/2), Date.now timestamps and durations are
supplied by oracle functions, the database and the vendor adapters are
supplied as explicit data / oracle functions, and a thrown exception is an
Except error value.  Strings are compared through their character lists.
-/

deriving instance DecidableEq for Except

/-- Single-character string holding the ASCII apostrophe (code 39). -/
def apos : String := Char.toString (Char.ofNat 39)

/-- Boolean prefix test on character lists. -/
def isPrefixL : List Char → List Char → Bool
  | [], _ => true
  | _ :: _, [] => false
  | a :: as, b :: bs => a == b && isPrefixL as bs

/-- Boolean infix (substring) test on character lists; models
JavaScript String.prototype.includes. -/
def isInfixL (needle : List Char) : List Char → Bool
  | [] => needle.isEmpty
  | b :: bs => isPrefixL needle (b :: bs) || isInfixL needle bs

/-- `hay.includes needle` on strings. -/
def strContains (hay needle : String) : Bool :=
  isInfixL needle.toList hay.toList

/-- ASCII lower-casing of a character list; models toLowerCase and the
case-insensitive regex flag for the ASCII patterns that occur here. -/
def lowerL (l : List Char) : List Char := l.map Char.toLower

/-- Both-ends whitespace trim on a character list; models String.prototype.trim
for the ASCII whitespace characters. -/
def trimL (l : List Char) : List Char :=
  ((l.dropWhile Char.isWhitespace).reverse.dropWhile Char.isWhitespace).reverse

/-- First `n` characters of a string; models String.prototype.slice(0, n). -/
def strTake (s : String) (n : ℕ) : String := String.mk (s.toList.take n)

-- =========================================================================
-- Cost model (src/types.ts COST_PER_MILLION_TOKENS, src/usage-tracker.ts)
-- =========================================================================

/-- The eleven configured vendor names (src/types.ts ProviderName). -/
inductive ProviderName where
  | anthropic | openai | google | ollama | deepseek | mistral
  | cohere | xai | zhipu | moonshot | openrouter
deriving DecidableEq

/-- Per-provider (input, output) USD rates per million tokens
(src/types.ts COST_PER_MILLION_TOKENS); the source decimals are written as
the exact rationals they denote. -/
def COST_PER_MILLION_TOKENS : ProviderName → ℚ × ℚ
  | .anthropic => (3, 15)
  | .openai => (5 / 2, 10)
  | .google => (3 / 10, 5 / 2)
  | .ollama => (0, 0)
  | .deepseek => (27 / 100, 11 / 10)
  | .mistral => (2, 6)
  | .cohere => (5 / 2, 10)
  | .xai => (3, 15)
  | .zhipu => (7 / 20, 7 / 5)
  | .moonshot => (1, 4)
  | .openrouter => (5 / 2, 10)

/-- JavaScript Math.round: round half toward positive infinity. -/
def jsRound (x : ℚ) : ℤ := ⌊x + 1 / 2⌋

/-- src/usage-tracker.ts calculateCost.  The dynamic `if (!costs) return 0`
guard cannot fire here because the embedded table is total over
ProviderName. -/
def calculateCost (provider : ProviderName) (inputTokens outputTokens : ℚ) : ℚ :=
  let costs := COST_PER_MILLION_TOKENS provider
  let inputCost := (inputTokens / 1000000) * costs.1
  let outputCost := (outputTokens / 1000000) * costs.2
  ((jsRound ((inputCost + outputCost) * 1000000) : ℤ) : ℚ) / 1000000

/-- The cost formula as the spec words it: input and output token counts,
each divided by one million and multiplied by the per-million rate, summed,
rounded to 6 decimal places. -/
def costFormulaSpec (provider : ProviderName) (inputTokens outputTokens : ℚ) : ℚ :=
  ((jsRound ((inputTokens / 1000000 * (COST_PER_MILLION_TOKENS provider).1
      + outputTokens / 1000000 * (COST_PER_MILLION_TOKENS provider).2) * 1000000) : ℤ) : ℚ)
    / 1000000

/-- Argument record of src/usage-tracker.ts trackUsage. -/
structure TrackUsageInput where
  provider : ProviderName
  modelId : String
  featureType : String
  teacherId : Option String := none
  inputTokens : ℚ
  outputTokens : ℚ
  responseTimeMs : ℚ
  success : Bool := true
  errorMessage : Option String := none
  failoverFrom : Option ProviderName := none
deriving DecidableEq

/-- Row appended to the LLMUsage table. -/
structure LLMUsageRow where
  provider : ProviderName
  modelId : String
  featureType : String
  teacherId : Option String
  inputTokens : ℚ
  outputTokens : ℚ
  totalTokens : ℚ
  costUsd : ℚ
  responseTimeMs : ℚ
  success : Bool
  errorMessage : Option String
  failoverFrom : Option ProviderName
deriving DecidableEq

/-- src/usage-tracker.ts trackUsage (the row it persists). -/
def trackUsage (input : TrackUsageInput) : LLMUsageRow :=
  { provider := input.provider
    modelId := input.modelId
    featureType := input.featureType
    teacherId := input.teacherId
    inputTokens := input.inputTokens
    outputTokens := input.outputTokens
    totalTokens := input.inputTokens + input.outputTokens
    costUsd := calculateCost input.provider input.inputTokens input.outputTokens
    responseTimeMs := input.responseTimeMs
    success := input.success
    errorMessage := input.errorMessage
    failoverFrom := input.failoverFrom }

-- =========================================================================
-- Error classification (src/failover.ts isRetryableError)
-- =========================================================================

/-- Lower-cased message contains a rate-limit indicator. -/
def hasRateLimit (m : List Char) : Bool :=
  isInfixL "rate limit".toList m || isInfixL "429".toList m

/-- Lower-cased message contains a service-unavailable indicator. -/
def hasServiceUnavailable (m : List Char) : Bool :=
  isInfixL "503".toList m || isInfixL "service unavailable".toList m

/-- Lower-cased message contains a network / timeout indicator. -/
def hasNetworkError (m : List Char) : Bool :=
  isInfixL "network".toList m || isInfixL "timeout".toList m
    || isInfixL "econnrefused".toList m || isInfixL "enotfound".toList m
    || isInfixL "fetch failed".toList m

/-- Lower-cased message contains a 5xx server-error indicator. -/
def hasServerError (m : List Char) : Bool :=
  isInfixL "500".toList m || isInfixL "502".toList m || isInfixL "504".toList m

/-- Lower-cased message contains a 4xx client-error indicator. -/
def hasClientError (m : List Char) : Bool :=
  isInfixL "400".toList m || isInfixL "401".toList m || isInfixL "403".toList m

/-- src/failover.ts isRetryableError, applied to the error message. -/
def isRetryableError (message : String) : Bool :=
  let m := lowerL message.toList
  if hasRateLimit m then true
  else if hasServiceUnavailable m then true
  else if hasNetworkError m then true
  else if hasServerError m then true
  else if hasClientError m then false
  else true

-- =========================================================================
-- Refusal detection (src/router-utils.ts REFUSAL_PATTERNS, isRefusalResponse)
-- =========================================================================

/-- All pairwise concatenations, used to expand the alternations of the
anchored refusal regexes into explicit prefixes. -/
def prodS (xs ys : List String) : List String :=
  (xs.map (fun x => ys.map (fun y => x ++ y))).flatten

/-- The (can not / cannot)-style alternation shared by several patterns. -/
def cantAlt : List String := ["can" ++ apos ++ "t", "cannot"]

/-- The seven anchored case-insensitive regexes of REFUSAL_PATTERNS,
expanded into the exact list of lower-case prefixes they accept. -/
def REFUSAL_PATTERNS : List String :=
  prodS ["i" ++ apos ++ "m", "i am"]
      (prodS [" sorry,", " sorry"]
        (prodS [" i "] (cantAlt ++ ["won" ++ apos ++ "t", "will not"])))
    ++ prodS ["i" ++ apos ++ "m", "i am"] [" not able to"]
    ++ prodS ["i "] (prodS cantAlt [" assist with"])
    ++ prodS ["i" ++ apos ++ "m", "i am"] [" unable to"]
    ++ prodS ["sorry,", "sorry"] (prodS [" but ", " "] (prodS ["i "] cantAlt))
    ++ prodS ["as an ai,", "as an ai"]
        (prodS [" i "] (cantAlt ++ ["don" ++ apos ++ "t"]))
    ++ prodS ["i apologize,", "i apologize"] (prodS [" but i "] cantAlt)

/-- Case-insensitive anchored match of the trimmed text against the
refusal patterns. -/
def matchesRefusalPattern (trimmed : List Char) : Bool :=
  REFUSAL_PATTERNS.any (fun p => isPrefixL p.toList (lowerL trimmed))

/-- src/router-utils.ts isRefusalResponse: trim, gate on length 500,
then test the anchored patterns. -/
def isRefusalResponse (text : String) : Bool :=
  let trimmed := trimL text.toList
  if trimmed.length > 500 then false
  else matchesRefusalPattern trimmed

-- =========================================================================
-- Failover wrapper (src/failover.ts withFailover, FailoverError)
-- =========================================================================

/-- One per-candidate error entry (src/failover.ts ProviderError).
Timestamp and duration are wall-clock values; the embedding receives them
from a `times` oracle. -/
structure ProviderErrorR where
  provider : String
  errMsg : String
  timestamp : ℕ
  durationMs : ℕ
deriving DecidableEq

/-- src/failover.ts FailoverError: the aggregate raised when every
candidate has failed. -/
structure FailoverErrorR where
  featureType : String
  errors : List ProviderErrorR
deriving DecidableEq

/-- FailoverError.totalAttempts (set to errors.length in the constructor). -/
def FailoverErrorR.totalAttempts (e : FailoverErrorR) : ℕ := e.errors.length

/-- The default diagnostic message built in the FailoverError constructor
(every in-repo throw site passes no explicit message). -/
def FailoverErrorR.message (e : FailoverErrorR) : String :=
  "All " ++ toString e.errors.length ++ " providers failed for feature \""
    ++ e.featureType ++ "\". Errors: "
    ++ String.intercalate "; " (e.errors.map (fun pe => pe.provider ++ ": " ++ pe.errMsg))

/-- FailoverError.userMessage: the fixed locale-appropriate user-facing text. -/
def FailoverErrorR.userMessage (_ : FailoverErrorR) : String :=
  "AI 서비스에 연결할 수 없습니다. 잠시 후 다시 시도해주세요."

/-- src/failover.ts FailoverResult (totalDurationMs, a wall-clock value,
is omitted from the embedding). -/
structure FailoverResultR (α : Type) where
  data : α
  provider : String
  wasFailover : Bool
  failoverFrom : Option String
  totalAttempts : ℕ
deriving DecidableEq

/-- Loop body of src/failover.ts withFailover.
`fn` is the per-provider generation callback (throwing = Except.error),
`times` yields the (timestamp, durationMs) pair observed for an attempt,
`tf` is the trackFailure write, whose outcome the source swallows with
.catch.  The second component of the result records, in order, the
(provider, attempt) pairs for which `fn` was invoked. -/
def withFailoverGo {α : Type} (fn : String → ℕ → Except String α)
    (times : ℕ → ℕ × ℕ) (tf : ℕ → Except String Unit) (featureType : String) :
    List String → ℕ → Option String → List ProviderErrorR →
    Except FailoverErrorR (FailoverResultR α) × List (String × ℕ)
  | [], _, _, errs => (.error ⟨featureType, errs⟩, [])
  | p :: rest, i, prev, errs =>
    let attempt := i + 1
    match fn p attempt with
    | .ok data => (.ok ⟨data, p, decide (0 < i), prev, attempt⟩, [(p, attempt)])
    | .error e =>
      let errs2 := errs ++ [⟨p, e, (times attempt).1, (times attempt).2⟩]
      let cont := fun (_ : Unit) =>
        if isRetryableError e then
          let next := withFailoverGo fn times tf featureType rest (i + 1) (some p) errs2
          (next.1, (p, attempt) :: next.2)
        else (.error ⟨featureType, errs2⟩, [(p, attempt)])
      -- await trackFailure(...).catch(...): the write happens, its failure
      -- is swallowed, so both outcomes continue identically
      match tf attempt with
      | .ok _ => cont ()
      | .error _ => cont ()

/-- src/failover.ts withFailover, with the attempt trace attached. -/
def withFailover {α : Type} (fn : String → ℕ → Except String α)
    (times : ℕ → ℕ × ℕ) (tf : ℕ → Except String Unit) (featureType : String)
    (providers : List String) :
    Except FailoverErrorR (FailoverResultR α) × List (String × ℕ) :=
  withFailoverGo fn times tf featureType providers 0 none []

/-- The error list accumulated when every attempt from position `i`
onward fails: provider of each candidate, its error, and the oracle
timestamp / duration of its attempt. -/
def mkFailErrs (errOf : String → ℕ → String) (times : ℕ → ℕ × ℕ) :
    List String → ℕ → List ProviderErrorR
  | [], _ => []
  | p :: rest, i =>
    ⟨p, errOf p (i + 1), (times (i + 1)).1, (times (i + 1)).2⟩
      :: mkFailErrs errOf times rest (i + 1)

/-- The (provider, attempt) trace when every candidate from position `i` is
attempted. -/
def attemptTrace : List String → ℕ → List (String × ℕ)
  | [], _ => []
  | p :: rest, i => (p, i + 1) :: attemptTrace rest (i + 1)

-- =========================================================================
-- Text generation loop (src/universal-router.ts generateWithProvider)
-- =========================================================================

/-- A resolved (provider, model) candidate as the router loops see it. -/
structure RCand where
  provider : String
  modelId : String
  supportsVision : Bool
deriving DecidableEq

/-- Result returned by the router loops (the token-usage payload lives
outside the embedding). -/
structure GenResultR where
  text : String
  provider : String
  model : String
  wasFailover : Bool
  failoverFrom : Option String
deriving DecidableEq

/-- The plain Error message thrown when generateWithProvider exhausts its
candidates. -/
def allFailedMsg (featureType : String) (lastErr : Option String) : String :=
  "All providers failed for feature \"" ++ featureType ++ "\". Last error: "
    ++ lastErr.getD "Unknown error"

/-- The lastError recorded when a model returns a refusal-shaped text. -/
def refusalErrMsg (modelId text : String) : String :=
  "Model " ++ modelId ++ " refused: " ++ strTake text 100

/-- Loop of src/universal-router.ts generateWithProvider over an already
resolved candidate list.  Oracles per candidate position `i`:
`ready` is the setupProviderEnv outcome, `gen` the generateText outcome
(throwing = Except.error), `tu` / `tf` the trackUsage / trackFailure
writes (both awaited by the source inside / without a catch).  `prev`
tracks the previous candidate (failoverFrom), `lastErr` the running
lastError.  The trace lists the positions at which generateText ran. -/
def generateWithProviderGo (ready : ℕ → Bool) (gen : ℕ → Except String String)
    (tu tf : ℕ → Except String Unit) (featureType : String) :
    List RCand → ℕ → Option String → Option String →
    Except String GenResultR × List ℕ
  | [], _, _, lastErr => (.error (allFailedMsg featureType lastErr), [])
  | c :: rest, i, prev, lastErr =>
    if ready i then
      match gen i with
      | .ok text =>
        if isRefusalResponse text then
          -- refusal: set lastError and continue, no exception, no tracking
          let next := generateWithProviderGo ready gen tu tf featureType rest
            (i + 1) (some c.provider) (some (refusalErrMsg c.modelId text))
          (next.1, i :: next.2)
        else
          match tu i with
          | .ok _ =>
            (.ok ⟨text, c.provider, c.modelId, decide (0 < i),
              if 0 < i then prev else none⟩, [i])
          | .error eU =>
            -- trackUsage threw inside the try: the catch treats it as this
            -- candidate failing; trackFailure is awaited without a catch
            match tf i with
            | .error eF => (.error eF, [i])
            | .ok _ =>
              if isRetryableError eU then
                let next := generateWithProviderGo ready gen tu tf featureType rest
                  (i + 1) (some c.provider) (some eU)
                (next.1, i :: next.2)
              else (.error (allFailedMsg featureType (some eU)), [i])
      | .error e =>
        match tf i with
        | .error eF => (.error eF, [i])
        | .ok _ =>
          if isRetryableError e then
            let next := generateWithProviderGo ready gen tu tf featureType rest
              (i + 1) (some c.provider) (some e)
            (next.1, i :: next.2)
          else (.error (allFailedMsg featureType (some e)), [i])
    else
      -- not ready: skipped without a tracked failure or a generation call
      generateWithProviderGo ready gen tu tf featureType rest (i + 1)
        (some c.provider) lastErr

/-- generateWithProvider on a resolved candidate list (candidate-list
construction — explicit providerId vs the feature resolver — is upstream). -/
def generateWithProvider (ready : ℕ → Bool) (gen : ℕ → Except String String)
    (tu tf : ℕ → Except String Unit) (featureType : String)
    (cands : List RCand) : Except String GenResultR × List ℕ :=
  generateWithProviderGo ready gen tu tf featureType cands 0 none none

-- =========================================================================
-- Vision generation loop (src/router-vision.ts generateWithVision)
-- =========================================================================

/-- Errors leaving generateWithVision: an aggregate FailoverError from the
exhaustion site, or a raw propagated exception (a trackFailure throw). -/
inductive VisionError where
  | raw (msg : String)
  | agg (e : FailoverErrorR)
deriving DecidableEq

/-- Loop of src/router-vision.ts generateWithVision.  Identical to the text
loop except that a candidate whose model lacks supportsVision is skipped,
and exhaustion throws a FailoverError holding a single entry: the
providerType of the LAST candidate of the original list (or "unknown"),
the running lastError (or "Unknown error"), the throw-time timestamp
`tsE`, and duration 0. -/
def generateWithVisionGo (ready : ℕ → Bool) (gen : ℕ → Except String String)
    (tu tf : ℕ → Except String Unit) (featureType : String)
    (lastListedProvider : String) (tsE : ℕ) :
    List RCand → ℕ → Option String → Option String →
    Except VisionError GenResultR × List ℕ
  | [], _, _, lastErr =>
    (.error (.agg ⟨featureType,
      [⟨lastListedProvider, lastErr.getD "Unknown error", tsE, 0⟩]⟩), [])
  | c :: rest, i, prev, lastErr =>
    if ready i then
      if c.supportsVision then
        match gen i with
        | .ok text =>
          if isRefusalResponse text then
            let next := generateWithVisionGo ready gen tu tf featureType
              lastListedProvider tsE rest (i + 1) (some c.provider)
              (some (refusalErrMsg c.modelId text))
            (next.1, i :: next.2)
          else
            match tu i with
            | .ok _ =>
              (.ok ⟨text, c.provider, c.modelId, decide (0 < i),
                if 0 < i then prev else none⟩, [i])
            | .error eU =>
              match tf i with
              | .error eF => (.error (.raw eF), [i])
              | .ok _ =>
                if isRetryableError eU then
                  let next := generateWithVisionGo ready gen tu tf featureType
                    lastListedProvider tsE rest (i + 1) (some c.provider) (some eU)
                  (next.1, i :: next.2)
                else
                  (.error (.agg ⟨featureType,
                    [⟨lastListedProvider, eU, tsE, 0⟩]⟩), [i])
        | .error e =>
          match tf i with
          | .error eF => (.error (.raw eF), [i])
          | .ok _ =>
            if isRetryableError e then
              let next := generateWithVisionGo ready gen tu tf featureType
                lastListedProvider tsE rest (i + 1) (some c.provider) (some e)
              (next.1, i :: next.2)
            else
              (.error (.agg ⟨featureType, [⟨lastListedProvider, e, tsE, 0⟩]⟩), [i])
      else
        -- model does not support vision: skipped, no tracked failure
        generateWithVisionGo ready gen tu tf featureType lastListedProvider tsE
          rest (i + 1) (some c.provider) lastErr
    else
      generateWithVisionGo ready gen tu tf featureType lastListedProvider tsE
        rest (i + 1) (some c.provider) lastErr

/-- generateWithVision on a resolved candidate list. -/
def generateWithVision (ready : ℕ → Bool) (gen : ℕ → Except String String)
    (tu tf : ℕ → Except String Unit) (featureType : String) (tsE : ℕ)
    (cands : List RCand) : Except VisionError GenResultR × List ℕ :=
  generateWithVisionGo ready gen tu tf featureType
    ((cands.getLast?.map RCand.provider).getD "unknown") tsE cands 0 none none

-- =========================================================================
-- Feature resolver (src/feature-resolver.ts)
-- =========================================================================

/-- Provider row columns consumed by the resolver. -/
structure ProviderRow where
  id : ℕ
  name : String
  providerType : String
  capabilities : List String
  costTier : String
  qualityTier : String
  isEnabled : Bool
deriving DecidableEq

/-- Model row columns consumed by the resolver. -/
structure ModelRow where
  id : ℕ
  providerId : ℕ
  modelId : String
  contextWindow : Option ℤ
  supportsVision : Bool
  supportsTools : Bool
  isDefault : Bool
deriving DecidableEq

/-- FeatureMapping row with its optionally pre-joined specificModel
record (FeatureMappingWithModel). -/
structure MappingRow where
  featureType : String
  matchMode : String
  requiredTags : List String
  excludedTags : List String
  specificModelId : Option ℕ
  priority : ℤ
  fallbackMode : String
  specificModel : Option (ModelRow × ProviderRow)
deriving DecidableEq

/-- ResolutionResultWithPriority. -/
structure ResolutionResultR where
  provider : ProviderRow
  model : ModelRow
  priority : ℤ
  fallbackMode : String
deriving DecidableEq

/-- The persistence layer as the resolver queries it: all FeatureMapping rows
(with joins) and all Model rows with their Provider. -/
structure ResolverDB where
  mappings : List MappingRow
  models : List (ModelRow × ProviderRow)

/-- db.model.findUnique({ where: { id }, include: { provider } }). -/
def findModelById (db : ResolverDB) (id : ℕ) : Option (ModelRow × ProviderRow) :=
  db.models.find? (fun mp => mp.1.id == id)

/-- Tag semantics shared by the requiredTags and excludedTags switches. -/
def tagMatches (model : ModelRow) (provider : ProviderRow) (tag : String) : Bool :=
  if tag == "vision" then model.supportsVision
  else if tag == "tools" then model.supportsTools
  else if tag == "fast" then provider.qualityTier == "fast"
  else if tag == "balanced" then provider.qualityTier == "balanced"
  else if tag == "premium" then provider.qualityTier == "premium"
  else if tag == "cheap" || tag == "low" then
    provider.costTier == "low" || provider.costTier == "free"
  else if tag == "medium" then provider.costTier == "medium"
  else if tag == "expensive" || tag == "high" then provider.costTier == "high"
  else provider.capabilities.contains tag

/-- ResolutionRequirements (absent fields are the falsy JS defaults). -/
structure RequirementsR where
  needsVision : Bool := false
  needsTools : Bool := false
  preferredCost : Option String := none
  preferredQuality : Option String := none
  minContextWindow : Option ℤ := none
deriving DecidableEq

/-- JS truthiness of an optional string (undefined and "" are falsy). -/
def strTruthy : Option String → Bool
  | none => false
  | some s => !(s == "")

/-- JS truthiness of an optional number (undefined, 0 are falsy). -/
def numTruthy : Option ℤ → Bool
  | none => false
  | some n => !(n == 0)

/-- The continue-chain of filters applied to one model inside
resolveByTags, as a single pass/fail predicate. -/
def passesTagFilters (mp : MappingRow) (reqs : RequirementsR)
    (model : ModelRow) (provider : ProviderRow) : Bool :=
  (if mp.requiredTags.length > 0 then
      mp.requiredTags.all (tagMatches model provider)
    else true)
  && (if mp.excludedTags.length > 0 then
        !(mp.excludedTags.any (tagMatches model provider))
      else true)
  && (!reqs.needsVision || model.supportsVision)
  && (!reqs.needsTools || model.supportsTools)
  && (if strTruthy reqs.preferredCost then
        provider.costTier == reqs.preferredCost.getD ""
      else true)
  && (if strTruthy reqs.preferredQuality then
        provider.qualityTier == reqs.preferredQuality.getD ""
      else true)
  && (if numTruthy reqs.minContextWindow && numTruthy model.contextWindow then
        !(model.contextWindow.getD 0 < reqs.minContextWindow.getD 0)
      else true)

/-- `model.contextWindow || 0`. -/
def ctxOf (r : ResolutionResultR) : ℤ := r.model.contextWindow.getD 0

/-- `modelId.includes(":free")`. -/
def isFreeModel (r : ResolutionResultR) : Bool :=
  strContains r.model.modelId ":free"

/-- `comparator(a, b) <= 0` for the result sort of resolveByTags:
free-marked models sort last, then larger context window first. -/
def resLE (a b : ResolutionResultR) : Bool :=
  if isFreeModel a != isFreeModel b then !(isFreeModel a)
  else ctxOf b ≤ ctxOf a

/-- Stable insertion for the result sort. -/
def insertRes (x : ResolutionResultR) : List ResolutionResultR → List ResolutionResultR
  | [] => [x]
  | y :: ys => if resLE x y then x :: y :: ys else y :: insertRes x ys

/-- Stable sort matching Array.prototype.sort with the resolveByTags
comparator (ties keep first-seen order). -/
def sortResults : List ResolutionResultR → List ResolutionResultR
  | [] => []
  | x :: xs => insertRes x (sortResults xs)

/-- src/feature-resolver.ts resolveByTags: models of enabled providers,
filtered by the rule tags and the scalar requirements, then sorted. -/
def resolveByTags (db : ResolverDB) (mp : MappingRow) (reqs : RequirementsR) :
    List ResolutionResultR :=
  sortResults
    (((db.models.filter (fun e => e.2.isEnabled)).filter
        (fun e => passesTagFilters mp reqs e.1 e.2)).map
      (fun e => ⟨e.2, e.1, mp.priority, mp.fallbackMode⟩))

/-- src/feature-resolver.ts resolveBySpecificModel: use the pre-joined
specificModel record when present, otherwise a fresh findUnique lookup
gated on the owning provider being enabled. -/
def resolveBySpecificModel (db : ResolverDB) (mp : MappingRow) :
    Option ResolutionResultR :=
  match mp.specificModelId with
  | none => none
  | some mid =>
    match mp.specificModel with
    | some joined => some ⟨joined.2, joined.1, mp.priority, mp.fallbackMode⟩
    | none =>
      match findModelById db mid with
      | none => none
      | some found =>
        if found.2.isEnabled then
          some ⟨found.2, found.1, mp.priority, mp.fallbackMode⟩
        else none

/-- Stable insertion for the descending-priority mapping sort
(`sort((a, b) => b.priority - a.priority)`). -/
def insertMapping (m : MappingRow) : List MappingRow → List MappingRow
  | [] => [m]
  | x :: xs => if x.priority ≤ m.priority then m :: x :: xs else x :: insertMapping m xs

/-- Stable descending-priority sort of the mapping rules. -/
def sortMappings : List MappingRow → List MappingRow
  | [] => []
  | x :: xs => insertMapping x (sortMappings xs)

/-- The rule loop of resolveWithFallback: accumulate the candidates of each rule
and stop after the first rule whose fallbackMode is "fail". -/
def evalMappings (db : ResolverDB) (reqs : RequirementsR) :
    List MappingRow → List ResolutionResultR
  | [] => []
  | mp :: rest =>
    let contrib :=
      if mp.matchMode == "auto_tag" then resolveByTags db mp reqs
      else if mp.matchMode == "specific_model" && mp.specificModelId.isSome then
        match resolveBySpecificModel db mp with
        | some r => [r]
        | none => []
      else []
    if mp.fallbackMode == "fail" then contrib
    else contrib ++ evalMappings db reqs rest

/-- Keep-first deduplication by the (provider.id, model.id) key. -/
def dedupResults : List ResolutionResultR → List (ℕ × ℕ) → List ResolutionResultR
  | [], _ => []
  | r :: rs, seen =>
    let key := (r.provider.id, r.model.id)
    if seen.contains key then dedupResults rs seen
    else r :: dedupResults rs (key :: seen)

/-- src/feature-resolver.ts resolveWithFallback. -/
def resolveWithFallback (db : ResolverDB) (featureType : String)
    (reqs : RequirementsR) : List ResolutionResultR :=
  let mappings := db.mappings.filter (fun m => m.featureType == featureType)
  if mappings.isEmpty then []
  else dedupResults (evalMappings db reqs (sortMappings mappings)) []

/-- Prefix of a rule list up to and including the first "fail"-mode rule. -/
def takeThroughFail : List MappingRow → List MappingRow
  | [] => []
  | mp :: rest =>
    if mp.fallbackMode == "fail" then [mp] else mp :: takeThroughFail rest

-- =========================================================================
-- Budget tracking (src/smart-routing.ts)
-- =========================================================================

/-- LLMBudget row (lastAlertAt is a timestamp from the `now` oracle). -/
structure LLMBudget where
  period : String
  budgetUsd : ℚ
  alertAt80 : Bool
  alertAt100 : Bool
  lastAlertThreshold : Option ℕ
  lastAlertAt : Option ℕ
deriving DecidableEq

/-- BudgetAlert (percentUsed, an IEEE float that can be Infinity, is not
carried in the embedding; threshold, cost and budget determine it). -/
structure BudgetAlertR where
  period : String
  threshold : ℕ
  currentCost : ℚ
  budget : ℚ
deriving DecidableEq

/-- `percentUsed >= 100` where percentUsed = currentCost / budgetUsd * 100
under IEEE semantics: for budget 0 the quotient is Infinity (cost > 0),
NaN (cost = 0) or -Infinity (cost < 0). -/
def percentGE100 (budget cost : ℚ) : Bool :=
  if 0 < budget then decide (budget ≤ cost)
  else if budget < 0 then decide (cost ≤ budget)
  else decide (0 < cost)

/-- `80 <= percentUsed < 100` under the same IEEE semantics. -/
def percentIn80 (budget cost : ℚ) : Bool :=
  if 0 < budget then decide (4 * budget ≤ 5 * cost) && decide (cost < budget)
  else if budget < 0 then decide (5 * cost ≤ 4 * budget) && decide (budget < cost)
  else false

/-- src/smart-routing.ts checkBudgetThreshold for an existing LLMBudget row:
returns the alert (if any) and the row as updateAlertStatus leaves it.
The absent-row case returns null without touching state and is omitted. -/
def checkBudgetThreshold (b : LLMBudget) (currentCost : ℚ) (now : ℕ) :
    Option BudgetAlertR × LLMBudget :=
  if percentGE100 b.budgetUsd currentCost && b.alertAt100
      && !(b.lastAlertThreshold == some 100) then
    (some ⟨b.period, 100, currentCost, b.budgetUsd⟩,
      { b with lastAlertThreshold := some 100, lastAlertAt := some now })
  else if percentIn80 b.budgetUsd currentCost && b.alertAt80
      && !(b.lastAlertThreshold == some 80)
      && !(b.lastAlertThreshold == some 100) then
    (some ⟨b.period, 80, currentCost, b.budgetUsd⟩,
      { b with lastAlertThreshold := some 80, lastAlertAt := some now })
  else (none, b)

/-- src/smart-routing.ts resetBudgetAlertStatus. -/
def resetBudgetAlertStatus (b : LLMBudget) : LLMBudget :=
  { b with lastAlertThreshold := none, lastAlertAt := none }

/-- A sequence of checkBudgetThreshold calls on one period, each with the
then-current cost and clock, threading the updated row; yields the raised
alerts in order. -/
def runChecks (b : LLMBudget) : List (ℚ × ℕ) → List BudgetAlertR
  | [] => []
  | (c, t) :: rest =>
    let step := checkBudgetThreshold b c t
    step.1.toList ++ runChecks step.2 rest

/-- One entry of the getBudgetSummary result. -/
structure BudgetSummaryR where
  period : String
  budget : ℚ
  currentCost : ℚ
  percentUsed : ℚ
  remaining : ℚ
  isOverBudget : Bool
  alertAt80 : Bool
  alertAt100 : Bool
deriving DecidableEq

/-- src/smart-routing.ts getBudgetSummary: one entry per period, with the
zero defaults when no LLMBudget row exists for the period.  `cost` is the
getCurrentPeriodCost aggregate per period. -/
def getBudgetSummary (budgets : List LLMBudget) (cost : String → ℚ) :
    List BudgetSummaryR :=
  ["daily", "weekly", "monthly"].map (fun period =>
    match budgets.find? (fun b => b.period == period) with
    | none =>
      ⟨period, 0, cost period, 0, 0, false, true, true⟩
    | some b =>
      ⟨period, b.budgetUsd, cost period,
        (if 0 < b.budgetUsd then cost period / b.budgetUsd * 100 else 0),
        max 0 (b.budgetUsd - cost period),
        decide (b.budgetUsd < cost period),
        b.alertAt80, b.alertAt100⟩)

/-- `COST_PER_MILLION_TOKENS[p].input === 0 && ... .output === 0`. -/
def isZeroRateProvider (p : ProviderName) : Bool :=
  (COST_PER_MILLION_TOKENS p).1 == 0 && (COST_PER_MILLION_TOKENS p).2 == 0

/-- src/smart-routing.ts filterByBudget. -/
def filterByBudget (budgets : List LLMBudget) (cost : String → ℚ)
    (enabledProviders : List ProviderName) : List ProviderName :=
  let summary := getBudgetSummary budgets cost
  let allOverBudget := summary.all (fun s => decide (0 < s.budget) && s.isOverBudget)
  if allOverBudget then
    let freeProviders := enabledProviders.filter isZeroRateProvider
    if freeProviders.length > 0 then freeProviders else enabledProviders
  else enabledProviders

-- =========================================================================
-- Concrete instances used by the counterexamples and witnesses
-- =========================================================================

/-- An enabled provider row. -/
def exProviderA : ProviderRow := ⟨1, "Claude", "anthropic", [], "high", "premium", true⟩

/-- A model of the enabled provider. -/
def exModelA : ModelRow := ⟨1, 1, "claude-sonnet-4-5", some 200000, true, true, true⟩

/-- A priority-2 specific_model rule whose pinned model id matches no row,
with fail fallback mode. -/
def exMapFail2 : MappingRow := ⟨"report_generate", "specific_model", [], [], some 99, 2, "fail", none⟩

/-- A priority-1 auto_tag rule with no tag constraints. -/
def exMapAuto1 : MappingRow := ⟨"report_generate", "auto_tag", [], [], none, 1, "next_priority", none⟩

/-- Database with the zero-candidate fail rule above a productive rule. -/
def exDB4 : ResolverDB := ⟨[exMapFail2, exMapAuto1], [(exModelA, exProviderA)]⟩

/-- The same database without the fail rule. -/
def exDB4noFail : ResolverDB := ⟨[exMapAuto1], [(exModelA, exProviderA)]⟩

/-- A DISABLED provider row. -/
def exProviderDis : ProviderRow := ⟨2, "GPT", "openai", [], "medium", "balanced", false⟩

/-- A model owned by the disabled provider. -/
def exModelDis : ModelRow := ⟨2, 2, "gpt-4o", some 128000, true, true, true⟩

/-- A specific_model rule whose pinned record arrives pre-joined with the
disabled provider. -/
def exMapJoined : MappingRow :=
  ⟨"face_analysis", "specific_model", [], [], some 2, 5, "next_priority",
    some (exModelDis, exProviderDis)⟩

/-- Database for the pre-joined disabled-provider scenario. -/
def exDB2 : ResolverDB := ⟨[exMapJoined], [(exModelDis, exProviderDis)]⟩

/-- An enabled provider for the fresh-lookup path. -/
def exProviderEn : ProviderRow := ⟨3, "Gemini", "google", [], "low", "fast", true⟩

/-- A model of the enabled provider, target of a fresh lookup. -/
def exModelEn : ModelRow := ⟨3, 3, "gemini-2.5-flash", some 1000000, true, true, true⟩

/-- A specific_model rule without a pre-joined record. -/
def exMapFresh : MappingRow := ⟨"face_analysis", "specific_model", [], [], some 3, 4, "next_priority", none⟩

/-- Database for the fresh-lookup path. -/
def exDBfresh : ResolverDB := ⟨[exMapFresh], [(exModelEn, exProviderEn)]⟩

/-- A refusal-shaped model response. -/
def refusalExample : String := "I" ++ apos ++ "m sorry, I cannot help with that request."

/-- A 501-character non-whitespace text (beyond the refusal length gate). -/
def longTextExample : String := String.mk (List.replicate 501 'a')

/-- A candidate as seen by the router loops. -/
def exCand : RCand := ⟨"anthropic", "claude-sonnet-4-5", true⟩

/-- A second candidate. -/
def exCand2 : RCand := ⟨"openai", "gpt-4o", true⟩

/-- Vision generation oracle failing retryably on both candidates. -/
def exVisGen : ℕ → Except String String := fun i =>
  if i == 0 then .error "503 service unavailable A" else .error "503 service unavailable B"

/-- A budget row for the daily period only (weekly / monthly unconfigured). -/
def exBudgetDaily : LLMBudget := ⟨"daily", 10, true, true, none, none⟩

/-- Period cost oracle: every period has consumed 20 USD. -/
def exCost20 : String → ℚ := fun _ => 20

/-- Budget rows for all three periods, each with a 10 USD ceiling. -/
def exBudgetsAll : List LLMBudget :=
  [⟨"daily", 10, true, true, none, none⟩,
   ⟨"weekly", 10, true, true, none, none⟩,
   ⟨"monthly", 10, true, true, none, none⟩]

/-- A budget row whose 100% alert has already fired. -/
def exBudgetAlerted : LLMBudget := ⟨"daily", 100, true, true, some 100, some 3⟩

/-- A budget row with no alert recorded. -/
def exBudgetOk : LLMBudget := ⟨"daily", 100, true, true, none, none⟩

-- =========================================================================
-- Theorems
-- =========================================================================

/-- Claim C5: isRetryableError classifies a message case-insensitively in the
precedence order rate-limit, service-unavailable, network or timeout, 5xx
server error (all retryable), then 4xx client error (not retryable), and
defaults to retryable; hence a message carrying both an earlier retryable
indicator and a 403 (such as "timeout 403") is retryable. -/
theorem c5_retryable_precedence :
    (∀ msg : String,
      isRetryableError msg =
        (hasRateLimit (lowerL msg.toList)
          || hasServiceUnavailable (lowerL msg.toList)
          || hasNetworkError (lowerL msg.toList)
          || hasServerError (lowerL msg.toList)
          || !hasClientError (lowerL msg.toList)))
    ∧ isRetryableError "timeout 403" = true
    ∧ isRetryableError "403 forbidden" = false
    ∧ isRetryableError "some novel failure" = true := by
  refine ⟨fun msg => ?_, by decide, by decide, by decide⟩
  simp only [isRetryableError]
  cases h1 : hasRateLimit (lowerL msg.toList) <;>
    cases h2 : hasServiceUnavailable (lowerL msg.toList) <;>
    cases h3 : hasNetworkError (lowerL msg.toList) <;>
    cases h4 : hasServerError (lowerL msg.toList) <;>
    cases h5 : hasClientError (lowerL msg.toList) <;>
    simp [h1, h2, h3, h4, h5]

/-- Claim C8: for every provider of the pricing table and all token counts,
calculateCost (used by trackUsage for the persisted costUsd) equals
inputTokens / 1e6 times the input rate plus outputTokens / 1e6 times the
output rate, rounded to 6 decimal places; at 1e6 input and 1e6 output tokens
under rates (3.0, 15.0) the cost is exactly 18. -/
theorem c8_cost_formula :
    (∀ (p : ProviderName) (i o : ℚ), calculateCost p i o = costFormulaSpec p i o)
    ∧ (∀ inp : TrackUsageInput,
        (trackUsage inp).costUsd = costFormulaSpec inp.provider inp.inputTokens inp.outputTokens)
    ∧ COST_PER_MILLION_TOKENS ProviderName.anthropic = (3, 15)
    ∧ calculateCost ProviderName.anthropic 1000000 1000000 = 18 := by
  refine ⟨fun p i o => rfl, fun inp => rfl, rfl, ?_⟩
  unfold calculateCost COST_PER_MILLION_TOKENS
  norm_num
  rw [show jsRound 18000000 = 18000000 by unfold jsRound; rw [Int.floor_eq_iff]; norm_num]
  norm_num

/-- The rule loop ignores everything after the first fail-mode rule. -/
theorem evalMappings_takeThroughFail (db : ResolverDB) (reqs : RequirementsR) :
    ∀ l : List MappingRow, evalMappings db reqs l = evalMappings db reqs (takeThroughFail l) := by
  intro l
  induction l with
  | nil => rfl
  | cons mp rest ih =>
    cases h : mp.fallbackMode == "fail" <;>
      simp [evalMappings, takeThroughFail, h, ih]

/-- Claim C4: resolveWithFallback stops evaluating rules at the first rule
(in descending-priority order) whose fallbackMode is "fail", even when that
rule produced zero candidates; concretely, a zero-candidate fail-mode rule
at priority 2 above a productive priority-1 rule yields an empty list. -/
theorem c4_fail_mode_halts :
    (∀ (db : ResolverDB) (reqs : RequirementsR) (l : List MappingRow),
        evalMappings db reqs l = evalMappings db reqs (takeThroughFail l))
    ∧ resolveWithFallback exDB4 "report_generate" {} = []
    ∧ resolveWithFallback exDB4noFail "report_generate" {} ≠ [] := by
  exact ⟨fun db reqs l => evalMappings_takeThroughFail db reqs l, by decide, by decide⟩

/-- Claim C2 counterexample: a specific_model rule whose pinned record
arrives pre-joined with a DISABLED provider still contributes that candidate
to resolveWithFallback, contradicting "a rule whose pinned model belongs to
a disabled provider contributes no candidate". -/
theorem c2_disabled_joined_counterexample :
    resolveWithFallback exDB2 "face_analysis" {}
        = [⟨exProviderDis, exModelDis, 5, "next_priority"⟩]
    ∧ exProviderDis.isEnabled = false := by
  exact ⟨by decide, by decide⟩

/-- Claim C2 (amended): the enabled-provider gate applies only on the
fresh-lookup path of resolveBySpecificModel; a pre-joined pinned record is
returned as a candidate regardless of the enabled flag of its owning provider. -/
theorem c2_specific_model_enabled_gate :
    (∀ (db : ResolverDB) (mp : MappingRow) (r : ResolutionResultR),
        mp.specificModel = none → resolveBySpecificModel db mp = some r →
        r.provider.isEnabled = true)
    ∧ (∀ (db : ResolverDB) (mp : MappingRow) (m : ModelRow) (p : ProviderRow),
        mp.specificModel = some (m, p) → mp.specificModelId.isSome = true →
        resolveBySpecificModel db mp = some ⟨p, m, mp.priority, mp.fallbackMode⟩) := by
  constructor
  · intro db mp r hjoin hres
    simp only [resolveBySpecificModel, hjoin] at hres
    split at hres
    · cases hres
    · split at hres
      · cases hres
      · split at hres
        · rename_i hen
          cases hres
          exact hen
        · cases hres
  · intro db mp m p hjoin hmid
    simp only [resolveBySpecificModel, hjoin]
    split
    · rename_i heq
      rw [heq] at hmid
      cases hmid
    · rfl

/-- Witness for c2_specific_model_enabled_gate: a fresh-lookup resolution
yields an enabled provider, and the pre-joined disabled record is returned. -/
theorem c2_specific_model_enabled_gate_witness :
    ((⟨exProviderEn, exModelEn, 4, "next_priority"⟩ : ResolutionResultR).provider.isEnabled = true)
    ∧ resolveBySpecificModel exDB2 exMapJoined
        = some ⟨exProviderDis, exModelDis, 5, "next_priority"⟩ :=
  ⟨c2_specific_model_enabled_gate.1 exDBfresh exMapFresh
      ⟨exProviderEn, exModelEn, 4, "next_priority"⟩ rfl (by decide),
    c2_specific_model_enabled_gate.2 exDB2 exMapJoined exModelDis exProviderDis rfl rfl⟩

/-- Claim C7: a response whose trimmed text is shorter than 500 characters
and matches a refusal pattern is treated as a failure of that candidate —
the generation loop records a refusal lastError and advances to the next
candidate without an exception — while trimmed text longer than 500
characters is never classified as a refusal. -/
theorem c7_refusal_detection :
    (∀ t : String, 500 < (trimL t.toList).length → isRefusalResponse t = false)
    ∧ (∀ t : String, (trimL t.toList).length < 500 →
        matchesRefusalPattern (trimL t.toList) = true → isRefusalResponse t = true)
    ∧ (∀ (ready : ℕ → Bool) (gen : ℕ → Except String String)
        (tu tf : ℕ → Except String Unit) (ft : String) (c : RCand)
        (rest : List RCand) (i : ℕ) (prev lastErr : Option String) (t : String),
        ready i = true → gen i = .ok t → isRefusalResponse t = true →
        generateWithProviderGo ready gen tu tf ft (c :: rest) i prev lastErr
          = ((generateWithProviderGo ready gen tu tf ft rest (i + 1) (some c.provider)
                (some (refusalErrMsg c.modelId t))).1,
             i :: (generateWithProviderGo ready gen tu tf ft rest (i + 1) (some c.provider)
                (some (refusalErrMsg c.modelId t))).2)) := by
  refine ⟨fun t h => ?_, fun t hlen hmatch => ?_, fun ready gen tu tf ft c rest i prev lastErr t hready hgen href => ?_⟩
  · simp only [isRefusalResponse]
    rw [if_pos h]
  · simp only [isRefusalResponse]
    rw [if_neg (by omega)]
    exact hmatch
  · simp [generateWithProviderGo, hready, hgen, href]

set_option maxRecDepth 40000 in
/-- Witness for c7_refusal_detection: a concrete refusal string passes the
gate and the pattern test, a 501-character text is not a refusal, and the
loop advances past a refusing candidate. -/
theorem c7_refusal_detection_witness :
    ((trimL refusalExample.toList).length < 500
      ∧ matchesRefusalPattern (trimL refusalExample.toList) = true
      ∧ isRefusalResponse refusalExample = true)
    ∧ (500 < (trimL longTextExample.toList).length
      ∧ isRefusalResponse longTextExample = false)
    ∧ generateWithProviderGo (fun _ => true) (fun _ => .ok refusalExample)
        (fun _ => .ok ()) (fun _ => .ok ()) "general_chat" [exCand] 0 none none
        = ((generateWithProviderGo (fun _ => true) (fun _ => .ok refusalExample)
              (fun _ => .ok ()) (fun _ => .ok ()) "general_chat" [] 1 (some exCand.provider)
              (some (refusalErrMsg exCand.modelId refusalExample))).1,
           0 :: (generateWithProviderGo (fun _ => true) (fun _ => .ok refusalExample)
              (fun _ => .ok ()) (fun _ => .ok ()) "general_chat" [] 1 (some exCand.provider)
              (some (refusalErrMsg exCand.modelId refusalExample))).2) :=
  ⟨⟨by decide, by decide,
      c7_refusal_detection.2.1 refusalExample (by decide) (by decide)⟩,
    ⟨by decide, c7_refusal_detection.1 longTextExample (by decide)⟩,
    c7_refusal_detection.2.2 (fun _ => true) (fun _ => .ok refusalExample)
      (fun _ => .ok ()) (fun _ => .ok ()) "general_chat" exCand [] 0 none none
      refusalExample rfl rfl
      (c7_refusal_detection.2.1 refusalExample (by decide) (by decide))⟩

/-- Claim C6: a non-retryable failure stops the failover chain.  For a
2-candidate list whose first candidate throws a non-retryable error (such
as "401 unauthorized"), withFailover never invokes the second candidate
(the attempt trace is exactly [(p1, 1)]) and the raised FailoverError
carries exactly that one per-candidate error; generateWithProvider likewise
attempts only candidate 0 and throws with that error as the last error. -/
theorem c6_nonretryable_stops_chain :
    (∀ {α : Type} (fn : String → ℕ → Except String α) (times : ℕ → ℕ × ℕ)
        (tf : ℕ → Except String Unit) (ft : String) (p1 p2 : String) (e : String),
        fn p1 1 = .error e → isRetryableError e = false →
        withFailover fn times tf ft [p1, p2]
          = (.error ⟨ft, [⟨p1, e, (times 1).1, (times 1).2⟩]⟩, [(p1, 1)]))
    ∧ (∀ (ready : ℕ → Bool) (gen : ℕ → Except String String)
        (tu tf : ℕ → Except String Unit) (ft : String) (c1 c2 : RCand) (e : String),
        ready 0 = true → gen 0 = .error e → tf 0 = .ok () →
        isRetryableError e = false →
        generateWithProvider ready gen tu tf ft [c1, c2]
          = (.error (allFailedMsg ft (some e)), [0])) := by
  constructor
  · intro α fn times tf ft p1 p2 e hfn hret
    rcases htf : tf 1 with u | eF <;>
      simp [withFailover, withFailoverGo, hfn, hret, htf]
  · intro ready gen tu tf ft c1 c2 e hready hgen htf hret
    simp [generateWithProvider, generateWithProviderGo, hready, hgen, htf, hret]

/-- Witness for c6_nonretryable_stops_chain at a concrete "401 unauthorized"
failure of the first of two candidates. -/
theorem c6_nonretryable_stops_chain_witness :
    ((fun (_ : String) (_ : ℕ) => (Except.error "401 unauthorized" : Except String Unit))
        "anthropic" 1 = .error "401 unauthorized"
      ∧ isRetryableError "401 unauthorized" = false)
    ∧ withFailover (fun _ _ => (Except.error "401 unauthorized" : Except String Unit))
        (fun _ => (5, 7)) (fun _ => .ok ()) "general_chat" ["anthropic", "openai"]
        = (.error ⟨"general_chat", [⟨"anthropic", "401 unauthorized", 5, 7⟩]⟩,
            [("anthropic", 1)])
    ∧ generateWithProvider (fun _ => true) (fun _ => .error "401 unauthorized")
        (fun _ => .ok ()) (fun _ => .ok ()) "general_chat" [exCand, exCand2]
        = (.error (allFailedMsg "general_chat" (some "401 unauthorized")), [0]) :=
  ⟨⟨rfl, by decide⟩,
    c6_nonretryable_stops_chain.1
      (fun _ _ => (Except.error "401 unauthorized" : Except String Unit))
      (fun _ => (5, 7)) (fun _ => .ok ()) "general_chat" "anthropic" "openai"
      "401 unauthorized" rfl (by decide),
    c6_nonretryable_stops_chain.2 (fun _ => true) (fun _ => .error "401 unauthorized")
      (fun _ => .ok ()) (fun _ => .ok ()) "general_chat" exCand exCand2
      "401 unauthorized" rfl rfl rfl (by decide)⟩

/-- mkFailErrs records exactly the candidate providers, in order. -/
theorem mkFailErrs_map_provider (errOf : String → ℕ → String) (times : ℕ → ℕ × ℕ) :
    ∀ (ps : List String) (i : ℕ),
      (mkFailErrs errOf times ps i).map ProviderErrorR.provider = ps := by
  intro ps
  induction ps with
  | nil => intro i; rfl
  | cons p rest ih => intro i; simp [mkFailErrs, ih]

/-- When the callback fails retryably on every provider and attempt, the
failover loop exhausts every candidate, accumulating one error per attempt. -/
theorem withFailoverGo_allFail {α : Type} (fn : String → ℕ → Except String α)
    (times : ℕ → ℕ × ℕ) (tf : ℕ → Except String Unit) (ft : String)
    (errOf : String → ℕ → String)
    (hfn : ∀ p a, fn p a = .error (errOf p a))
    (hret : ∀ p a, isRetryableError (errOf p a) = true) :
    ∀ (ps : List String) (i : ℕ) (prev : Option String) (errs : List ProviderErrorR),
      withFailoverGo fn times tf ft ps i prev errs
        = (.error ⟨ft, errs ++ mkFailErrs errOf times ps i⟩, attemptTrace ps i) := by
  intro ps
  induction ps with
  | nil => intro i prev errs; simp [withFailoverGo, mkFailErrs, attemptTrace]
  | cons p rest ih =>
    intro i prev errs
    rcases htf : tf (i + 1) with u | eF <;>
      simp [withFailoverGo, hfn p (i + 1), hret p (i + 1), htf, mkFailErrs,
        attemptTrace, ih]

/-- The FailoverError diagnostic message always begins with "All ", so it
never coincides with the fixed user-facing message. -/
theorem failover_message_ne_userMessage (e : FailoverErrorR) :
    e.message ≠ e.userMessage := by
  intro h
  have h1 : e.message.data.get? 1 = some 'l' := rfl
  have h2 : e.userMessage.data.get? 1 = some 'I' := rfl
  rw [h, h2] at h1
  cases h1

/-- Claim C1 (amended): the full-aggregate behavior holds for withFailover:
when every candidate fails retryably, the loop exhausts the list and raises
a FailoverError carrying the feature type and one (provider, error,
timestamp, duration) entry per failed attempt, in attempt order, whose
totalAttempts equals the candidate count and whose fixed user-facing
message differs from its concatenated diagnostic message.  (The concrete
text and streaming paths instead raise a plain Error carrying only the last
error message, and the vision path raises a single-entry FailoverError —
see the counterexample.) -/
theorem c1_withFailover_aggregate_errors :
    ∀ {α : Type} (fn : String → ℕ → Except String α) (times : ℕ → ℕ × ℕ)
      (tf : ℕ → Except String Unit) (ft : String) (ps : List String)
      (errOf : String → ℕ → String),
      (∀ p a, fn p a = .error (errOf p a)) →
      (∀ p a, isRetryableError (errOf p a) = true) →
      withFailover fn times tf ft ps
          = (.error ⟨ft, mkFailErrs errOf times ps 0⟩, attemptTrace ps 0)
        ∧ (mkFailErrs errOf times ps 0).map ProviderErrorR.provider = ps
        ∧ (FailoverErrorR.mk ft (mkFailErrs errOf times ps 0)).totalAttempts = ps.length
        ∧ (FailoverErrorR.mk ft (mkFailErrs errOf times ps 0)).message
            ≠ (FailoverErrorR.mk ft (mkFailErrs errOf times ps 0)).userMessage := by
  intro α fn times tf ft ps errOf hfn hret
  refine ⟨?_, mkFailErrs_map_provider errOf times ps 0, ?_, failover_message_ne_userMessage _⟩
  · simpa [withFailover] using withFailoverGo_allFail fn times tf ft errOf hfn hret ps 0 none []
  · show (mkFailErrs errOf times ps 0).length = ps.length
    have := congrArg List.length (mkFailErrs_map_provider errOf times ps 0)
    simpa using this

/-- Witness for c1_withFailover_aggregate_errors: two candidates, both
failing with a retryable network error. -/
theorem c1_withFailover_aggregate_errors_witness :
    withFailover (fun _ _ => (Except.error "network down" : Except String Unit))
        (fun a => (a, 10)) (fun _ => .ok ()) "general_chat" ["anthropic", "openai"]
        = (.error ⟨"general_chat",
            mkFailErrs (fun _ _ => "network down") (fun a => (a, 10)) ["anthropic", "openai"] 0⟩,
           attemptTrace ["anthropic", "openai"] 0)
      ∧ (mkFailErrs (fun _ _ => "network down") (fun a => (a, 10))
          ["anthropic", "openai"] 0).map ProviderErrorR.provider = ["anthropic", "openai"]
      ∧ (FailoverErrorR.mk "general_chat"
          (mkFailErrs (fun _ _ => "network down") (fun a => (a, 10))
            ["anthropic", "openai"] 0)).totalAttempts = ["anthropic", "openai"].length
      ∧ (FailoverErrorR.mk "general_chat"
          (mkFailErrs (fun _ _ => "network down") (fun a => (a, 10))
            ["anthropic", "openai"] 0)).message
          ≠ (FailoverErrorR.mk "general_chat"
              (mkFailErrs (fun _ _ => "network down") (fun a => (a, 10))
                ["anthropic", "openai"] 0)).userMessage :=
  c1_withFailover_aggregate_errors
    (fun _ _ => (Except.error "network down" : Except String Unit))
    (fun a => (a, 10)) (fun _ => .ok ()) "general_chat" ["anthropic", "openai"]
    (fun _ _ => "network down") (fun _ _ => rfl)
    (by intro p a; show isRetryableError "network down" = true; decide)

/-- Claim C1 counterexample: in the vision path, two candidates fail (the
attempt trace is [0, 1]) yet the raised FailoverError carries a single
synthesized entry — the provider of the last listed candidate, the last error,
duration 0 — not one entry per failed attempt.  This falsifies the claim
that the text, streaming and vision paths all raise an aggregate with the
ordered list of all per-candidate errors. -/
theorem c1_vision_aggregate_counterexample :
    generateWithVision (fun _ => true) exVisGen (fun _ => .ok ()) (fun _ => .ok ())
        "face_analysis" 7 [exCand, exCand2]
      = (.error (.agg ⟨"face_analysis",
          [⟨"openai", "503 service unavailable B", 7, 0⟩]⟩), [0, 1])
    ∧ (FailoverErrorR.mk "face_analysis"
        [⟨"openai", "503 service unavailable B", 7, 0⟩]).errors.length
        ≠ [0, 1].length := by
  exact ⟨by decide, by decide⟩

/-- The outcome of the failover wrapper never depends on whether its
trackFailure writes succeed or fail. -/
theorem withFailoverGo_tf_indep {α : Type} (fn : String → ℕ → Except String α)
    (times : ℕ → ℕ × ℕ) (ft : String) (tf tf' : ℕ → Except String Unit) :
    ∀ (ps : List String) (i : ℕ) (prev : Option String) (errs : List ProviderErrorR),
      withFailoverGo fn times tf ft ps i prev errs
        = withFailoverGo fn times tf' ft ps i prev errs := by
  intro ps
  induction ps with
  | nil => intro i prev errs; rfl
  | cons p rest ih =>
    intro i prev errs
    rcases hfn : fn p (i + 1) with e | d
    · rcases htf : tf (i + 1) with eF | u <;> rcases htf2 : tf' (i + 1) with eF2 | u2 <;>
        simp only [withFailoverGo, hfn, htf, htf2] <;> split <;> simp [ih]
    · simp [withFailoverGo, hfn]

/-- Claim C3 (amended): withFailover swallows trackFailure write failures —
its outcome is identical under any two tracking oracles.  In
generateWithProvider, however, a trackUsage throw after a successful,
non-refusal generation is caught by the candidate error handler: the
success is discarded, trackFailure runs, and the loop continues with the
tracking error as lastError (retryable case); and a trackFailure throw
propagates out of the loop as the request error. -/
theorem c3_tracking_swallowed_scope :
    (∀ {α : Type} (fn : String → ℕ → Except String α) (times : ℕ → ℕ × ℕ)
        (ft : String) (ps : List String) (tf tf' : ℕ → Except String Unit),
        withFailover fn times tf ft ps = withFailover fn times tf' ft ps)
    ∧ (∀ (ready : ℕ → Bool) (gen : ℕ → Except String String)
        (tu tf : ℕ → Except String Unit) (ft : String) (c : RCand)
        (rest : List RCand) (i : ℕ) (prev lastErr : Option String)
        (t eU : String),
        ready i = true → gen i = .ok t → isRefusalResponse t = false →
        tu i = .error eU → tf i = .ok () → isRetryableError eU = true →
        generateWithProviderGo ready gen tu tf ft (c :: rest) i prev lastErr
          = ((generateWithProviderGo ready gen tu tf ft rest (i + 1)
                (some c.provider) (some eU)).1,
             i :: (generateWithProviderGo ready gen tu tf ft rest (i + 1)
                (some c.provider) (some eU)).2))
    ∧ (∀ (ready : ℕ → Bool) (gen : ℕ → Except String String)
        (tu tf : ℕ → Except String Unit) (ft : String) (c : RCand)
        (rest : List RCand) (i : ℕ) (prev lastErr : Option String) (e eF : String),
        ready i = true → gen i = .error e → tf i = .error eF →
        generateWithProviderGo ready gen tu tf ft (c :: rest) i prev lastErr
          = (.error eF, [i])) := by
  refine ⟨fun fn times ft ps tf tf' => ?_, ?_, ?_⟩
  · exact withFailoverGo_tf_indep fn times ft tf tf' ps 0 none []
  · intro ready gen tu tf ft c rest i prev lastErr t eU hready hgen href htu htf hret
    simp [generateWithProviderGo, hready, hgen, href, htu, htf, hret]
  · intro ready gen tu tf ft c rest i prev lastErr e eF hready hgen htf
    simp [generateWithProviderGo, hready, hgen, htf]

/-- Claim C3 counterexample: a single candidate generates successfully, but
the trackUsage write throws ("db write failed"); generateWithProvider does
NOT return the successful result — the attempt is treated as a provider
failure and the request ends with the all-providers-failed error carrying
the tracking error as its last error, contradicting "a generation attempt
that succeeded still returns its result to the caller". -/
theorem c3_trackusage_failure_counterexample :
    generateWithProvider (fun _ => true) (fun _ => .ok "A normal successful answer.")
        (fun _ => .error "db write failed") (fun _ => .ok ()) "general_chat" [exCand]
      = (.error (allFailedMsg "general_chat" (some "db write failed")), [0]) := by
  decide

/-- Witness for c3_tracking_swallowed_scope at concrete oracles: the
withFailover outcome is unchanged between an always-succeeding and an
always-throwing trackFailure; a trackUsage throw after success turns into a
failed attempt; a trackFailure throw propagates. -/
theorem c3_tracking_swallowed_scope_witness :
    withFailover (fun _ _ => (Except.error "timeout" : Except String Unit))
        (fun a => (a, 1)) (fun _ => .ok ()) "general_chat" ["anthropic"]
      = withFailover (fun _ _ => (Except.error "timeout" : Except String Unit))
          (fun a => (a, 1)) (fun _ => .error "tracking down") "general_chat" ["anthropic"]
    ∧ generateWithProviderGo (fun _ => true) (fun _ => .ok "A normal successful answer.")
        (fun _ => .error "db write failed") (fun _ => .ok ()) "general_chat"
        [exCand] 0 none none
      = ((generateWithProviderGo (fun _ => true) (fun _ => .ok "A normal successful answer.")
            (fun _ => .error "db write failed") (fun _ => .ok ()) "general_chat"
            [] 1 (some exCand.provider) (some "db write failed")).1,
         0 :: (generateWithProviderGo (fun _ => true) (fun _ => .ok "A normal successful answer.")
            (fun _ => .error "db write failed") (fun _ => .ok ()) "general_chat"
            [] 1 (some exCand.provider) (some "db write failed")).2)
    ∧ generateWithProviderGo (fun _ => true) (fun _ => .error "503 oops")
        (fun _ => .ok ()) (fun _ => .error "tracking down") "general_chat"
        [exCand, exCand2] 0 none none
      = (.error "tracking down", [0]) :=
  ⟨c3_tracking_swallowed_scope.1 (fun _ _ => (Except.error "timeout" : Except String Unit))
      (fun a => (a, 1)) "general_chat" ["anthropic"] (fun _ => .ok ())
      (fun _ => .error "tracking down"),
    c3_tracking_swallowed_scope.2.1 (fun _ => true)
      (fun _ => .ok "A normal successful answer.") (fun _ => .error "db write failed")
      (fun _ => .ok ()) "general_chat" exCand [] 0 none none
      "A normal successful answer." "db write failed" rfl rfl (by decide) rfl rfl
      (by decide),
    c3_tracking_swallowed_scope.2.2 (fun _ => true) (fun _ => .error "503 oops")
      (fun _ => .ok ()) (fun _ => .error "tracking down") "general_chat" exCand
      [exCand2] 0 none none "503 oops" "tracking down" rfl rfl rfl⟩

/-- Unfolding step for a checkBudgetThreshold call sequence. -/
theorem runChecks_cons (b : LLMBudget) (c : ℚ) (t : ℕ) (rest : List (ℚ × ℕ)) :
    runChecks b ((c, t) :: rest)
      = (checkBudgetThreshold b c t).1.toList
        ++ runChecks (checkBudgetThreshold b c t).2 rest := rfl

/-- Once the 100% alert is recorded, checkBudgetThreshold raises nothing and
leaves the row unchanged. -/
theorem checkBudgetThreshold_last100 (b : LLMBudget) (c : ℚ) (t : ℕ)
    (h : b.lastAlertThreshold = some 100) :
    checkBudgetThreshold b c t = (none, b) := by
  unfold checkBudgetThreshold
  simp [h]

/-- With the 80% alert recorded, a check either raises nothing or records
the 100% threshold. -/
theorem checkBudgetThreshold_last80 (b : LLMBudget) (c : ℚ) (t : ℕ)
    (h : b.lastAlertThreshold = some 80) :
    checkBudgetThreshold b c t = (none, b)
    ∨ ((checkBudgetThreshold b c t).1 = some ⟨b.period, 100, c, b.budgetUsd⟩
        ∧ (checkBudgetThreshold b c t).2.lastAlertThreshold = some 100) := by
  unfold checkBudgetThreshold
  split
  · exact Or.inr ⟨rfl, rfl⟩
  split
  · rename_i hcond
    rw [h] at hcond
    simp at hcond
  · exact Or.inl rfl

/-- A check either raises nothing and leaves the row unchanged, or raises
one threshold alert and records that threshold. -/
theorem checkBudgetThreshold_shape (b : LLMBudget) (c : ℚ) (t : ℕ) :
    checkBudgetThreshold b c t = (none, b)
    ∨ ((checkBudgetThreshold b c t).1 = some ⟨b.period, 100, c, b.budgetUsd⟩
        ∧ (checkBudgetThreshold b c t).2.lastAlertThreshold = some 100)
    ∨ ((checkBudgetThreshold b c t).1 = some ⟨b.period, 80, c, b.budgetUsd⟩
        ∧ (checkBudgetThreshold b c t).2.lastAlertThreshold = some 80) := by
  unfold checkBudgetThreshold
  split
  · exact Or.inr (Or.inl ⟨rfl, rfl⟩)
  split
  · exact Or.inr (Or.inr ⟨rfl, rfl⟩)
  · exact Or.inl rfl

/-- After a recorded 100% alert, no later check of the sequence raises
anything. -/
theorem runChecks_last100 (cs : List (ℚ × ℕ)) :
    ∀ b : LLMBudget, b.lastAlertThreshold = some 100 → runChecks b cs = [] := by
  induction cs with
  | nil => intro b _; rfl
  | cons ct rest ih =>
    intro b h
    obtain ⟨c, t⟩ := ct
    rw [runChecks_cons, checkBudgetThreshold_last100 b c t h]
    simpa using ih b h

/-- After a recorded 80% (or 100%) alert, no later check raises another
80% alert. -/
theorem runChecks_no_more_80 (cs : List (ℚ × ℕ)) :
    ∀ b : LLMBudget,
      b.lastAlertThreshold = some 80 ∨ b.lastAlertThreshold = some 100 →
      (runChecks b cs).countP (fun a => a.threshold == 80) = 0 := by
  induction cs with
  | nil => intro b _; rfl
  | cons ct rest ih =>
    intro b h
    obtain ⟨c, t⟩ := ct
    rcases h with h80 | h100
    · rcases checkBudgetThreshold_last80 b c t h80 with hnone | ⟨h1, h2⟩
      · rw [runChecks_cons, hnone]
        simpa using ih b (Or.inl h80)
      · rw [runChecks_cons, h1, runChecks_last100 rest _ h2]
        simp
    · rw [runChecks_last100 ((c, t) :: rest) b h100]
      rfl

/-- Over any call sequence from any starting row, each threshold alert is
raised at most once. -/
theorem runChecks_counts_le_one (cs : List (ℚ × ℕ)) :
    ∀ b : LLMBudget,
      (runChecks b cs).countP (fun a => a.threshold == 80) ≤ 1
      ∧ (runChecks b cs).countP (fun a => a.threshold == 100) ≤ 1 := by
  induction cs with
  | nil => intro b; constructor <;> simp [runChecks]
  | cons ct rest ih =>
    intro b
    obtain ⟨c, t⟩ := ct
    rcases checkBudgetThreshold_shape b c t with hnone | ⟨h1, h2⟩ | ⟨h1, h2⟩
    · rw [runChecks_cons, hnone]
      simpa using ih b
    · rw [runChecks_cons, h1, runChecks_last100 rest _ h2]
      constructor <;> simp
    · rw [runChecks_cons, h1]
      constructor
      · have h0 := runChecks_no_more_80 rest _ (Or.inl h2)
        simp [h0]
      · have hc := (ih ((checkBudgetThreshold b c t).2)).2
        simpa using hc

/-- Claim C9: per period the alert state machine is monotonic.  Over every
sequence of checkBudgetThreshold calls the 80% and the 100% alert are each
raised at most once; once lastAlertThreshold = 100 is recorded a later
check raises no alert at all (in particular not at 85% usage); a check
never clears a recorded threshold, which only resetBudgetAlertStatus does. -/
theorem c9_budget_alert_monotonic :
    (∀ (b : LLMBudget) (cs : List (ℚ × ℕ)),
        (runChecks b cs).countP (fun a => a.threshold == 80) ≤ 1
        ∧ (runChecks b cs).countP (fun a => a.threshold == 100) ≤ 1)
    ∧ (∀ (b : LLMBudget) (c : ℚ) (t : ℕ), b.lastAlertThreshold = some 100 →
        (checkBudgetThreshold b c t).1 = none)
    ∧ (∀ (b : LLMBudget) (c : ℚ) (t : ℕ),
        (checkBudgetThreshold b c t).2.lastAlertThreshold = none →
        b.lastAlertThreshold = none)
    ∧ (∀ b : LLMBudget, (resetBudgetAlertStatus b).lastAlertThreshold = none
        ∧ (resetBudgetAlertStatus b).lastAlertAt = none) := by
  refine ⟨fun b cs => runChecks_counts_le_one cs b, fun b c t h => ?_, fun b c t h => ?_,
    fun b => ⟨rfl, rfl⟩⟩
  · rw [checkBudgetThreshold_last100 b c t h]
  · rcases checkBudgetThreshold_shape b c t with hnone | ⟨_, h2⟩ | ⟨_, h2⟩
    · rw [hnone] at h
      exact h
    · rw [h] at h2
      cases h2
    · rw [h] at h2
      cases h2

/-- Witness for c9_budget_alert_monotonic: a daily row with lastAlertThreshold
100 raises nothing at 85% usage; a zero-budget check leaves an empty alert
state empty; reset clears the state. -/
theorem c9_budget_alert_monotonic_witness :
    ((runChecks exBudgetAlerted [(85, 4)]).countP (fun a => a.threshold == 80) ≤ 1)
    ∧ (checkBudgetThreshold exBudgetAlerted 85 4).1 = none
    ∧ ((checkBudgetThreshold (LLMBudget.mk "daily" 0 true true none none) 0 9).2.lastAlertThreshold = none
        ∧ (LLMBudget.mk "daily" 0 true true none none).lastAlertThreshold = none)
    ∧ (resetBudgetAlertStatus exBudgetAlerted).lastAlertThreshold = none :=
  ⟨(c9_budget_alert_monotonic.1 exBudgetAlerted [(85, 4)]).1,
    c9_budget_alert_monotonic.2.1 exBudgetAlerted 85 4 rfl,
    ⟨by decide,
      c9_budget_alert_monotonic.2.2.1 (LLMBudget.mk "daily" 0 true true none none) 0 9
        (by decide)⟩,
    (c9_budget_alert_monotonic.2.2.2 exBudgetAlerted).1⟩

/-- Claim C10 counterexample: with only the daily period configured (budget
10) and the cost of every period at 20, every period with a positive configured
budget IS over budget, yet filterByBudget returns the input unchanged
rather than only the zero-rate providers — the gating condition requires
all three periods to have a positive budget and be over it. -/
theorem c10_unconfigured_period_counterexample :
    ((getBudgetSummary [exBudgetDaily] exCost20).all
        (fun s => !(decide (0 < s.budget)) || s.isOverBudget) = true)
    ∧ [ProviderName.ollama, ProviderName.anthropic].filter isZeroRateProvider
        = [ProviderName.ollama]
    ∧ filterByBudget [exBudgetDaily] exCost20 [ProviderName.ollama, ProviderName.anthropic]
        = [ProviderName.ollama, ProviderName.anthropic]
    ∧ [ProviderName.ollama, ProviderName.anthropic] ≠ [ProviderName.ollama] := by
  refine ⟨by decide, by decide, by decide, by decide⟩

/-- Claim C10 (amended): filterByBudget preserves non-emptiness, and it
switches to the zero-rate subset exactly when all three period summaries
have a positive budget and are over it: if any period lacks a positive
budget or is within budget the input is returned unchanged; under the
all-over condition the zero-rate subset is returned when non-empty, else
the input is returned unchanged. -/
theorem c10_filter_by_budget :
    (∀ (budgets : List LLMBudget) (cost : String → ℚ) (enabled : List ProviderName),
        enabled ≠ [] → filterByBudget budgets cost enabled ≠ [])
    ∧ (∀ (budgets : List LLMBudget) (cost : String → ℚ) (enabled : List ProviderName),
        (getBudgetSummary budgets cost).all
            (fun s => decide (0 < s.budget) && s.isOverBudget) = false →
        filterByBudget budgets cost enabled = enabled)
    ∧ (∀ (budgets : List LLMBudget) (cost : String → ℚ) (enabled : List ProviderName),
        (getBudgetSummary budgets cost).all
            (fun s => decide (0 < s.budget) && s.isOverBudget) = true →
        enabled.filter isZeroRateProvider ≠ [] →
        filterByBudget budgets cost enabled = enabled.filter isZeroRateProvider)
    ∧ (∀ (budgets : List LLMBudget) (cost : String → ℚ) (enabled : List ProviderName),
        (getBudgetSummary budgets cost).all
            (fun s => decide (0 < s.budget) && s.isOverBudget) = true →
        enabled.filter isZeroRateProvider = [] →
        filterByBudget budgets cost enabled = enabled) := by
  refine ⟨fun budgets cost enabled hne => ?_, fun budgets cost enabled hall => ?_,
    fun budgets cost enabled hall hfree => ?_, fun budgets cost enabled hall hfree => ?_⟩
  · cases hall : (getBudgetSummary budgets cost).all
        (fun s => decide (0 < s.budget) && s.isOverBudget)
    · simpa [filterByBudget, hall] using hne
    · cases hfree : enabled.filter isZeroRateProvider with
      | nil => simpa [filterByBudget, hall, hfree] using hne
      | cons p ps => simp [filterByBudget, hall, hfree]
  · simp [filterByBudget, hall]
  · cases hf : enabled.filter isZeroRateProvider with
    | nil => exact absurd hf hfree
    | cons p ps => simp [filterByBudget, hall, hf]
  · simp [filterByBudget, hall, hfree]

/-- Witness for c10_filter_by_budget at concrete inputs: non-emptiness with
no configured budget; unchanged output when the all-over condition fails;
the zero-rate subset when all three periods are over budget; unchanged
output when no zero-rate provider is enabled. -/
theorem c10_filter_by_budget_witness :
    filterByBudget [] (fun _ => 0) [ProviderName.ollama] ≠ []
    ∧ filterByBudget [exBudgetDaily] exCost20 [ProviderName.ollama, ProviderName.anthropic]
        = [ProviderName.ollama, ProviderName.anthropic]
    ∧ filterByBudget exBudgetsAll exCost20 [ProviderName.ollama, ProviderName.anthropic]
        = [ProviderName.ollama, ProviderName.anthropic].filter isZeroRateProvider
    ∧ filterByBudget exBudgetsAll exCost20 [ProviderName.anthropic]
        = [ProviderName.anthropic] :=
  ⟨c10_filter_by_budget.1 [] (fun _ => 0) [ProviderName.ollama] (by decide),
    c10_filter_by_budget.2.1 [exBudgetDaily] exCost20
      [ProviderName.ollama, ProviderName.anthropic] (by decide),
    c10_filter_by_budget.2.2.1 exBudgetsAll exCost20
      [ProviderName.ollama, ProviderName.anthropic] (by decide) (by decide),
    c10_filter_by_budget.2.2.2 exBudgetsAll exCost20 [ProviderName.anthropic]
      (by decide) (by decide)⟩
